import Mathlib

/-!
Verification of the selenium grid scaler (pkg/scalers/selenium_grid_scaler.go).

The Go file is embedded shallowly:

* JSON decoding of a capability string (`json.Unmarshal` into a `capability`
  record) is modelled by storing the decode result itself: an
  `Option capability`, where `none` stands for a string that does not decode.
* The HTTP transport of `getSessionsCount` is abstracted away: the function is
  modelled from the point where the response (status code and decoded body)
  is available.
* Go `int`/`int64` values are modelled as `Int`. The count starts at 0 and is
  only ever incremented, and the division is guarded by `gridMaxSession > 0`,
  so the numerator and denominator are non-negative there and Lean division on
  `Int` agrees with Go division on every reachable input.
-/

namespace KedaSelenium

/-- Source constant `DefaultBrowserVersion = "latest"`. -/
def DefaultBrowserVersion : String := "latest"

/-- Parsed capability record (Go struct `capability`): the `browserName` and
`browserVersion` fields of a decoded capability JSON object. -/
structure capability where
  BrowserName : String
  BrowserVersion : String
deriving DecidableEq

/-- Go struct `seleniumSession`. `Capabilities` holds the decode result of the
raw capability string of the session (`none` = string that does not decode). -/
structure seleniumSession where
  ID : String
  Capabilities : Option capability
  NodeID : String
deriving DecidableEq

/-- Go struct `sessionsInfo`. Each queued request is the decode result of its
raw capability string (`none` = string that does not decode). -/
structure sessionsInfo where
  SessionQueueRequests : List (Option capability)
  Sessions : List seleniumSession
deriving DecidableEq

/-- Go struct `grid`. -/
structure grid where
  MaxSession : Int
deriving DecidableEq

/-- Go struct `data`. -/
structure data where
  Grid : grid
  SessionsInfo : sessionsInfo
deriving DecidableEq

/-- Go struct `seleniumResponse`. -/
structure seleniumResponse where
  Data : data
deriving DecidableEq

/-- Embedding of Go `strings.HasPrefix s pre`: does `s` start with `pre`?
Stated on the character lists of the strings. -/
def stringsHasPrefix (s pre : String) : Bool :=
  List.isPrefixOf pre.data s.data

/-- Body of the first loop of `getCountFromSeleniumResponse` (over
`sessionQueueRequests`): a decoded entry is counted when its browser name is
the target name and either the target version starts the entry version, or
the entry version is empty while the target is `DefaultBrowserVersion`.
An entry that failed to decode leaves the count unchanged. -/
def queueLoopBody (browserName browserVersion : String) (count : Int)
    (sessionQueueRequest : Option capability) : Int :=
  match sessionQueueRequest with
  | some c =>
    if c.BrowserName == browserName then
      if stringsHasPrefix c.BrowserVersion browserVersion then count + 1
      else if c.BrowserVersion == "" && browserVersion == DefaultBrowserVersion then count + 1
      else count
    else count
  | none => count

/-- Body of the second loop of `getCountFromSeleniumResponse` (over
`sessions`): same as the queue loop except that the fallback branch tests only
`browserVersion == DefaultBrowserVersion`, without requiring the entry version
to be empty. -/
def sessionLoopBody (browserName browserVersion : String) (count : Int)
    (session : seleniumSession) : Int :=
  match session.Capabilities with
  | some c =>
    if c.BrowserName == browserName then
      if stringsHasPrefix c.BrowserVersion browserVersion then count + 1
      else if browserVersion == DefaultBrowserVersion then count + 1
      else count
    else count
  | none => count

/-- `getCountFromSeleniumResponse` on a decoded response: the two counting
loops followed by the `gridMaxSession` normalization. -/
def getCountFromSeleniumResponse (resp : seleniumResponse)
    (browserName browserVersion : String) : Int :=
  let count : Int := 0
  let count := List.foldl (queueLoopBody browserName browserVersion) count
    resp.Data.SessionsInfo.SessionQueueRequests
  let count := List.foldl (sessionLoopBody browserName browserVersion) count
    resp.Data.SessionsInfo.Sessions
  let gridMaxSession : Int := resp.Data.Grid.MaxSession
  if gridMaxSession > 0 then (count + gridMaxSession - 1) / gridMaxSession
  else count

/-- The raw matched count of `getCountFromSeleniumResponse`: the value of
`count` after both loops, before the `gridMaxSession` normalization. -/
def rawMatchedCount (resp : seleniumResponse)
    (browserName browserVersion : String) : Int :=
  List.foldl (sessionLoopBody browserName browserVersion)
    (List.foldl (queueLoopBody browserName browserVersion) 0
      resp.Data.SessionsInfo.SessionQueueRequests)
    resp.Data.SessionsInfo.Sessions

/-- The two error shapes a count computation can report: the outer
`json.Unmarshal` failure of the response body, and the non-200 status error
of `getSessionsCount` (which records the observed status code). -/
inductive scalerError where
  | unmarshalError : scalerError
  | statusError : Nat → scalerError
deriving DecidableEq

/-- Go `getCountFromSeleniumResponse` takes the raw response bytes and first
runs `json.Unmarshal` on them; that decode result is the `Option` argument
here. On decode failure the Go function returns `(0, err)`; otherwise it
returns the computed count and no error. -/
def getCountFromSeleniumResponseResult (decoded : Option seleniumResponse)
    (browserName browserVersion : String) : Int × Option scalerError :=
  match decoded with
  | none => (0, some scalerError.unmarshalError)
  | some resp => (getCountFromSeleniumResponse resp browserName browserVersion, none)

/-- The part of the HTTP response that `getSessionsCount` inspects: the status
code, and the decode result of the body bytes. -/
structure httpResponse where
  StatusCode : Nat
  Body : Option seleniumResponse
deriving DecidableEq

/-- `getSessionsCount` from the point where the HTTP response is available:
a status other than 200 is a hard failure carrying the observed code; then
the count is computed from the body, mapping a count error to `(-1, err)`. -/
def getSessionsCount (res : httpResponse)
    (browserName browserVersion : String) : Int × Option scalerError :=
  if res.StatusCode ≠ 200 then (-1, some (scalerError.statusError res.StatusCode))
  else
    match getCountFromSeleniumResponseResult res.Body browserName browserVersion with
    | (_, some e) => (-1, some e)
    | (v, none) => (v, none)

/-- `IsActive`: on a count error returns `(false, err)`, otherwise reports
whether the count is positive. -/
def IsActive (res : httpResponse)
    (browserName browserVersion : String) : Bool × Option scalerError :=
  match getSessionsCount res browserName browserVersion with
  | (_, some e) => (false, some e)
  | (v, none) => (decide (v > 0), none)

/-- The part of Go `ScalerConfig` that `parseSeleniumGridScalerMetadata`
reads: the trigger metadata map (a map lookup returns `some` value or
`none` for an absent key) and the scaler index. -/
structure ScalerConfig where
  TriggerMetadata : String → Option String
  ScalerIndex : Int

/-- Go struct `seleniumGridScalerMetadata`. -/
structure seleniumGridScalerMetadata where
  url : String
  browserName : String
  targetValue : Int
  browserVersion : String
  unsafeSsl : Bool
  scalerIndex : Int
deriving DecidableEq

/-- Embedding of Go `strconv.ParseBool`: accepts exactly the twelve literal
spellings and fails on anything else. -/
def strconvParseBool (s : String) : Option Bool :=
  if s = "1" ∨ s = "t" ∨ s = "T" ∨ s = "TRUE" ∨ s = "true" ∨ s = "True" then some true
  else if s = "0" ∨ s = "f" ∨ s = "F" ∨ s = "FALSE" ∨ s = "false" ∨ s = "False" then some false
  else none

/-- The browserVersion defaulting block of `parseSeleniumGridScalerMetadata`:
a key present with a non-empty value is kept, otherwise the default sentinel
is used. -/
def metadataBrowserVersion (lookup : Option String) : String :=
  match lookup with
  | some val => if val ≠ "" then val else DefaultBrowserVersion
  | none => DefaultBrowserVersion

/-- `parseSeleniumGridScalerMetadata`: `url` and `browserName` are required;
`browserVersion` falls back to `DefaultBrowserVersion` when the key is absent
or its value is empty; `unsafeSsl` is parsed with `strconv.ParseBool` when
present (a parse failure is an error) and defaults to `false`; `targetValue`
is 1 and `scalerIndex` is copied from the config. -/
def parseSeleniumGridScalerMetadata (config : ScalerConfig) :
    Except String seleniumGridScalerMetadata :=
  match config.TriggerMetadata "url" with
  | none => Except.error "no selenium grid url given in metadata"
  | some urlVal =>
    match config.TriggerMetadata "browserName" with
    | none => Except.error "no browser name given in metadata"
    | some nameVal =>
      match config.TriggerMetadata "unsafeSsl" with
      | some val =>
        match strconvParseBool val with
        | none => Except.error "error parsing unsafeSsl"
        | some b => Except.ok ⟨urlVal, nameVal, 1,
            metadataBrowserVersion (config.TriggerMetadata "browserVersion"),
            b, config.ScalerIndex⟩
      | none => Except.ok ⟨urlVal, nameVal, 1,
          metadataBrowserVersion (config.TriggerMetadata "browserVersion"),
          false, config.ScalerIndex⟩

/-- Spec notion of a version-family match: the target version is an initial
segment of the entry version, so target `"96"` accepts entry `"96.0.1"`. -/
def VersionFamilyMatch (target entry : String) : Prop :=
  ∃ rest : String, entry = target ++ rest

/-- The queued-request matching rule, written from the spec text: the browser
name is exactly the target name, and the entry version is in the family of the
target version, or the entry version is empty while the target version is the
default sentinel. -/
def specQueuedMatch (browserName browserVersion : String) (c : capability) : Prop :=
  c.BrowserName = browserName ∧
    (VersionFamilyMatch browserVersion c.BrowserVersion ∨
      (c.BrowserVersion = "" ∧ browserVersion = DefaultBrowserVersion))

/-- The active-session matching rule, written from the spec text: the browser
name is exactly the target name, and the entry version is in the family of the
target version, or the target version is the default sentinel (the entry
version is ignored in that branch). -/
def specSessionMatch (browserName browserVersion : String) (c : capability) : Prop :=
  c.BrowserName = browserName ∧
    (VersionFamilyMatch browserVersion c.BrowserVersion ∨
      browserVersion = DefaultBrowserVersion)

/-- Whether the queue loop counts an entry: false on a decode failure,
otherwise the conjunction tested by `queueLoopBody`. -/
def queueMatchB (browserName browserVersion : String)
    (sessionQueueRequest : Option capability) : Bool :=
  match sessionQueueRequest with
  | some c => c.BrowserName == browserName &&
      (stringsHasPrefix c.BrowserVersion browserVersion ||
        (c.BrowserVersion == "" && browserVersion == DefaultBrowserVersion))
  | none => false

/-- Whether the session loop counts a session: false on a decode failure,
otherwise the conjunction tested by `sessionLoopBody`. -/
def sessionMatchB (browserName browserVersion : String)
    (session : seleniumSession) : Bool :=
  match session.Capabilities with
  | some c => c.BrowserName == browserName &&
      (stringsHasPrefix c.BrowserVersion browserVersion ||
        browserVersion == DefaultBrowserVersion)
  | none => false

/-- Example response: two matching queued requests (one of them with an empty
version), one queued request for another browser, one matching session, on a
grid with two sessions per node. -/
def respExample : seleniumResponse :=
  ⟨⟨⟨2⟩, ⟨[some ⟨"chrome", "96.0"⟩, some ⟨"firefox", "95"⟩, some ⟨"chrome", ""⟩],
    [⟨"id1", some ⟨"chrome", "94.1"⟩, "node1"⟩]⟩⟩⟩

/-- Example response whose raw matched count for target (chrome, latest) is 4
on a grid with two sessions per node. -/
def respCeilExample : seleniumResponse :=
  ⟨⟨⟨2⟩, ⟨[some ⟨"chrome", ""⟩, some ⟨"chrome", ""⟩, some ⟨"chrome", ""⟩],
    [⟨"id1", some ⟨"chrome", "96.0"⟩, "node1"⟩]⟩⟩⟩

/-- Example response in which every capability string failed to decode. -/
def respAllMalformed : seleniumResponse :=
  ⟨⟨⟨2⟩, ⟨[none, none], [⟨"id1", none, "node1"⟩]⟩⟩⟩

/-- Example response with no queued requests and no sessions. -/
def respEmpty : seleniumResponse :=
  ⟨⟨⟨3⟩, ⟨[], []⟩⟩⟩

/-- Example HTTP response: status 200 with a decoded body. -/
def resOk : httpResponse :=
  ⟨200, some respCeilExample⟩

/-- Example HTTP response: server error status. -/
def resServerError : httpResponse :=
  ⟨500, some respExample⟩

/-- Example scaler configuration with no browserVersion key. -/
def cfgNoVersion : ScalerConfig :=
  ⟨fun k => if k = "url" then some "http://selenium-hub:4444/graphql"
    else if k = "browserName" then some "chrome"
    else none, 0⟩

/-! ### Helper lemmas -/

theorem queueLoopBody_eq (browserName browserVersion : String) (count : Int)
    (oc : Option capability) :
    queueLoopBody browserName browserVersion count oc
      = count + (if queueMatchB browserName browserVersion oc then 1 else 0) := by
  cases oc with
  | none => simp [queueLoopBody, queueMatchB]
  | some c =>
    simp only [queueLoopBody, queueMatchB]
    rcases Bool.eq_false_or_eq_true (c.BrowserName == browserName) with h1 | h1 <;>
      rcases Bool.eq_false_or_eq_true (stringsHasPrefix c.BrowserVersion browserVersion) with h2 | h2 <;>
        rcases Bool.eq_false_or_eq_true
          (c.BrowserVersion == "" && browserVersion == DefaultBrowserVersion) with h3 | h3 <;>
          simp [h1, h2, h3]

theorem sessionLoopBody_eq (browserName browserVersion : String) (count : Int)
    (s : seleniumSession) :
    sessionLoopBody browserName browserVersion count s
      = count + (if sessionMatchB browserName browserVersion s then 1 else 0) := by
  cases hs : s.Capabilities with
  | none => simp [sessionLoopBody, sessionMatchB, hs]
  | some c =>
    simp only [sessionLoopBody, sessionMatchB, hs]
    rcases Bool.eq_false_or_eq_true (c.BrowserName == browserName) with h1 | h1 <;>
      rcases Bool.eq_false_or_eq_true (stringsHasPrefix c.BrowserVersion browserVersion) with h2 | h2 <;>
        rcases Bool.eq_false_or_eq_true (browserVersion == DefaultBrowserVersion) with h3 | h3 <;>
          simp [h1, h2, h3]

theorem foldl_queueLoopBody (browserName browserVersion : String)
    (l : List (Option capability)) (init : Int) :
    List.foldl (queueLoopBody browserName browserVersion) init l
      = init + (l.countP (queueMatchB browserName browserVersion) : Int) := by
  induction l generalizing init with
  | nil => simp
  | cons a t ih =>
    rw [List.foldl_cons, queueLoopBody_eq, ih, List.countP_cons]
    rcases Bool.eq_false_or_eq_true (queueMatchB browserName browserVersion a) with h | h <;>
      simp [h] <;> omega

theorem foldl_sessionLoopBody (browserName browserVersion : String)
    (l : List seleniumSession) (init : Int) :
    List.foldl (sessionLoopBody browserName browserVersion) init l
      = init + (l.countP (sessionMatchB browserName browserVersion) : Int) := by
  induction l generalizing init with
  | nil => simp
  | cons a t ih =>
    rw [List.foldl_cons, sessionLoopBody_eq, ih, List.countP_cons]
    rcases Bool.eq_false_or_eq_true (sessionMatchB browserName browserVersion a) with h | h <;>
      simp [h] <;> omega

theorem rawMatchedCount_eq (resp : seleniumResponse) (browserName browserVersion : String) :
    rawMatchedCount resp browserName browserVersion
      = (resp.Data.SessionsInfo.SessionQueueRequests.countP
          (queueMatchB browserName browserVersion) : Int)
        + (resp.Data.SessionsInfo.Sessions.countP
          (sessionMatchB browserName browserVersion) : Int) := by
  rw [rawMatchedCount, foldl_sessionLoopBody, foldl_queueLoopBody, zero_add]

theorem getCount_eq_normalize (resp : seleniumResponse) (browserName browserVersion : String) :
    getCountFromSeleniumResponse resp browserName browserVersion
      = if resp.Data.Grid.MaxSession > 0 then
          (rawMatchedCount resp browserName browserVersion + resp.Data.Grid.MaxSession - 1)
            / resp.Data.Grid.MaxSession
        else rawMatchedCount resp browserName browserVersion := rfl

theorem rawMatchedCount_nonneg (resp : seleniumResponse)
    (browserName browserVersion : String) :
    0 ≤ rawMatchedCount resp browserName browserVersion := by
  rw [rawMatchedCount_eq]
  positivity

theorem stringsHasPrefix_iff (s pre : String) :
    stringsHasPrefix s pre = true ↔ VersionFamilyMatch pre s := by
  rw [stringsHasPrefix, List.isPrefixOf_iff_prefix]
  constructor
  · rintro ⟨t, ht⟩
    exact ⟨⟨t⟩, String.ext (by rw [String.data_append]; exact ht.symm)⟩
  · rintro ⟨rest, hrest⟩
    subst hrest
    exact ⟨rest.data, rfl⟩

theorem nat_ceil_div_ge (c mm : Nat) (h : 0 < mm) :
    c ≤ mm * ((c + mm - 1) / mm) := by
  have hdm := Nat.div_add_mod (c + mm - 1) mm
  have hr := Nat.mod_lt (c + mm - 1) h
  omega

theorem nat_ceil_div_lt (c mm : Nat) (h : 0 < mm) :
    mm * ((c + mm - 1) / mm) < c + mm := by
  have hdm := Nat.div_add_mod (c + mm - 1) mm
  have hr := Nat.mod_lt (c + mm - 1) h
  omega

theorem nat_ceil_div_le_self (c mm : Nat) (h : 0 < mm) :
    (c + mm - 1) / mm ≤ c := by
  have hdm := Nat.div_add_mod (c + mm - 1) mm
  have hr := Nat.mod_lt (c + mm - 1) h
  by_contra hcon
  push_neg at hcon
  have h4 : c + 1 ≤ (c + mm - 1) / mm := hcon
  have h5 : mm * (c + 1) ≤ mm * ((c + mm - 1) / mm) :=
    Nat.mul_le_mul (Nat.le_refl mm) h4
  have h6 : c ≤ mm * c := Nat.le_mul_of_pos_left c h
  have h7 : mm * (c + 1) = mm * c + mm := by ring
  omega

theorem int_ceil_div_eq_cast (n : Nat) (m : Int) (hm : 0 < m) :
    ((n : Int) + m - 1) / m = ((n + m.toNat - 1) / m.toNat : Nat) := by
  lift m to Nat using le_of_lt hm
  have hmm : 0 < m := by exact_mod_cast hm
  rw [Int.toNat_natCast, Int.ofNat_ediv]
  congr 1
  omega

theorem getCount_nonneg_le_raw (resp : seleniumResponse)
    (browserName browserVersion : String) :
    0 ≤ getCountFromSeleniumResponse resp browserName browserVersion
    ∧ getCountFromSeleniumResponse resp browserName browserVersion
        ≤ rawMatchedCount resp browserName browserVersion := by
  have hraw := rawMatchedCount_nonneg resp browserName browserVersion
  rw [getCount_eq_normalize]
  by_cases hm : resp.Data.Grid.MaxSession > 0
  · rw [if_pos hm]
    have hcast : rawMatchedCount resp browserName browserVersion
        = ((rawMatchedCount resp browserName browserVersion).toNat : Int) :=
      (Int.toNat_of_nonneg hraw).symm
    have hmm : 0 < resp.Data.Grid.MaxSession.toNat := by omega
    have hle := nat_ceil_div_le_self (rawMatchedCount resp browserName browserVersion).toNat
      resp.Data.Grid.MaxSession.toNat hmm
    rw [hcast, int_ceil_div_eq_cast _ _ hm]
    constructor
    · exact Int.natCast_nonneg _
    · exact_mod_cast hle
  · rw [if_neg hm]
    exact ⟨hraw, le_refl _⟩

theorem getCount_eq_zero_of_raw_zero (resp : seleniumResponse)
    (browserName browserVersion : String)
    (h : rawMatchedCount resp browserName browserVersion = 0) :
    getCountFromSeleniumResponse resp browserName browserVersion = 0 := by
  rw [getCount_eq_normalize, h]
  by_cases hm : resp.Data.Grid.MaxSession > 0
  · rw [if_pos hm, zero_add]
    exact Int.ediv_eq_zero_of_lt (by omega) (by omega)
  · rw [if_neg hm]

theorem metadataBrowserVersion_spec (lookup : Option String) :
    metadataBrowserVersion lookup ≠ ""
    ∧ ((lookup = none ∨ lookup = some "") →
        metadataBrowserVersion lookup = DefaultBrowserVersion) := by
  cases lookup with
  | none => exact ⟨by decide, fun _ => rfl⟩
  | some val =>
    by_cases hval : val = ""
    · subst hval
      exact ⟨by decide, fun _ => by simp [metadataBrowserVersion]⟩
    · constructor
      · simp [metadataBrowserVersion, hval]
      · intro hd
        rcases hd with h1 | h2
        · exact absurd h1 (by simp)
        · exact absurd (Option.some.inj h2) hval

/-! ### Claim theorems -/

/-- Claim C1: the raw demand count of `getCountFromSeleniumResponse` counts
each entry at most once, and a queued request that decodes is counted exactly
when the decoded browser name equals the target name and either the target
version is an initial segment of the entry version, or the entry version is
empty while the target version is the default sentinel "latest". -/
theorem queued_request_matching_rule :
    ∀ (browserName browserVersion : String) (resp : seleniumResponse),
      rawMatchedCount resp browserName browserVersion
        = (resp.Data.SessionsInfo.SessionQueueRequests.countP
            (queueMatchB browserName browserVersion) : Int)
          + (resp.Data.SessionsInfo.Sessions.countP
            (sessionMatchB browserName browserVersion) : Int)
      ∧ ∀ c : capability,
          queueMatchB browserName browserVersion (some c) = true
            ↔ specQueuedMatch browserName browserVersion c := by
  intro browserName browserVersion resp
  refine ⟨rawMatchedCount_eq resp browserName browserVersion, ?_⟩
  intro c
  simp only [queueMatchB, specQueuedMatch, Bool.and_eq_true, Bool.or_eq_true,
    beq_iff_eq, stringsHasPrefix_iff]

/-- Witness for C1: the queued request with browser chrome and empty version
satisfies the spec matching rule for target (chrome, latest). -/
theorem queued_request_matching_rule_witness :
    specQueuedMatch "chrome" "latest" ⟨"chrome", ""⟩ :=
  ((queued_request_matching_rule "chrome" "latest" respExample).2
    ⟨"chrome", ""⟩).mp (by decide)

/-- Claim C2: an active session that decodes is counted exactly when the
decoded browser name equals the target name and either the target version is
an initial segment of the entry version, or the target version is the default
sentinel "latest" regardless of the entry version; the raw demand count counts
each session at most once. -/
theorem active_session_matching_rule :
    ∀ (browserName browserVersion : String) (resp : seleniumResponse),
      rawMatchedCount resp browserName browserVersion
        = (resp.Data.SessionsInfo.SessionQueueRequests.countP
            (queueMatchB browserName browserVersion) : Int)
          + (resp.Data.SessionsInfo.Sessions.countP
            (sessionMatchB browserName browserVersion) : Int)
      ∧ ∀ (s : seleniumSession) (c : capability), s.Capabilities = some c →
          (sessionMatchB browserName browserVersion s = true
            ↔ specSessionMatch browserName browserVersion c) := by
  intro browserName browserVersion resp
  refine ⟨rawMatchedCount_eq resp browserName browserVersion, ?_⟩
  intro s c hc
  simp only [sessionMatchB, hc, specSessionMatch, Bool.and_eq_true, Bool.or_eq_true,
    beq_iff_eq, stringsHasPrefix_iff]

/-- Witness for C2: the active session with browser chrome and the non-empty
version 94.1 satisfies the spec matching rule for target (chrome, latest),
although the same capability would not match as a queued request. -/
theorem active_session_matching_rule_witness :
    specSessionMatch "chrome" "latest" ⟨"chrome", "94.1"⟩ :=
  ((active_session_matching_rule "chrome" "latest" respExample).2
    ⟨"id1", some ⟨"chrome", "94.1"⟩, "node1"⟩ ⟨"chrome", "94.1"⟩ rfl).mp (by decide)

/-- Claim C3: when `MaxSession > 0` the returned value is the ceiling of the
raw matched count divided by `MaxSession`, computed in integer arithmetic as
`(raw + MaxSession - 1) / MaxSession` (the two inequalities state that the
result is exactly that ceiling); when `MaxSession ≤ 0` the raw matched count
is returned unchanged. -/
theorem normalization_ceiling_rule :
    ∀ (resp : seleniumResponse) (browserName browserVersion : String),
      (0 < resp.Data.Grid.MaxSession →
        getCountFromSeleniumResponse resp browserName browserVersion
          = (rawMatchedCount resp browserName browserVersion
              + resp.Data.Grid.MaxSession - 1) / resp.Data.Grid.MaxSession
        ∧ rawMatchedCount resp browserName browserVersion
            ≤ resp.Data.Grid.MaxSession
              * getCountFromSeleniumResponse resp browserName browserVersion
        ∧ resp.Data.Grid.MaxSession
            * (getCountFromSeleniumResponse resp browserName browserVersion - 1)
            < rawMatchedCount resp browserName browserVersion)
      ∧ (resp.Data.Grid.MaxSession ≤ 0 →
          getCountFromSeleniumResponse resp browserName browserVersion
            = rawMatchedCount resp browserName browserVersion) := by
  intro resp browserName browserVersion
  constructor
  · intro hm
    have hraw := rawMatchedCount_nonneg resp browserName browserVersion
    have hform : getCountFromSeleniumResponse resp browserName browserVersion
        = (rawMatchedCount resp browserName browserVersion
            + resp.Data.Grid.MaxSession - 1) / resp.Data.Grid.MaxSession := by
      rw [getCount_eq_normalize, if_pos hm]
    have hcast : rawMatchedCount resp browserName browserVersion
        = ((rawMatchedCount resp browserName browserVersion).toNat : Int) :=
      (Int.toNat_of_nonneg hraw).symm
    have hmt : (resp.Data.Grid.MaxSession.toNat : Int) = resp.Data.Grid.MaxSession :=
      Int.toNat_of_nonneg (le_of_lt hm)
    have hmm : 0 < resp.Data.Grid.MaxSession.toNat := by omega
    have hdiv : getCountFromSeleniumResponse resp browserName browserVersion
        = (((rawMatchedCount resp browserName browserVersion).toNat
            + resp.Data.Grid.MaxSession.toNat - 1)
              / resp.Data.Grid.MaxSession.toNat : Nat) := by
      rw [hform, hcast, int_ceil_div_eq_cast _ _ hm, Int.toNat_natCast]
    have hge := nat_ceil_div_ge (rawMatchedCount resp browserName browserVersion).toNat
      resp.Data.Grid.MaxSession.toNat hmm
    have hlt := nat_ceil_div_lt (rawMatchedCount resp browserName browserVersion).toNat
      resp.Data.Grid.MaxSession.toNat hmm
    have hgeI : ((rawMatchedCount resp browserName browserVersion).toNat : Int)
        ≤ (resp.Data.Grid.MaxSession.toNat : Int)
          * (((rawMatchedCount resp browserName browserVersion).toNat
              + resp.Data.Grid.MaxSession.toNat - 1)
                / resp.Data.Grid.MaxSession.toNat : Nat) := by
      exact_mod_cast hge
    have hltI : (resp.Data.Grid.MaxSession.toNat : Int)
        * (((rawMatchedCount resp browserName browserVersion).toNat
            + resp.Data.Grid.MaxSession.toNat - 1)
              / resp.Data.Grid.MaxSession.toNat : Nat)
        < ((rawMatchedCount resp browserName browserVersion).toNat : Int)
          + (resp.Data.Grid.MaxSession.toNat : Int) := by
      exact_mod_cast hlt
    rw [hmt] at hgeI hltI
    rw [← hcast] at hgeI hltI
    refine ⟨hform, ?_, ?_⟩
    · rw [hdiv]
      exact hgeI
    · rw [hdiv]
      have hexp : resp.Data.Grid.MaxSession
          * ((((rawMatchedCount resp browserName browserVersion).toNat
              + resp.Data.Grid.MaxSession.toNat - 1)
                / resp.Data.Grid.MaxSession.toNat : Nat) - 1)
          = resp.Data.Grid.MaxSession
            * (((rawMatchedCount resp browserName browserVersion).toNat
                + resp.Data.Grid.MaxSession.toNat - 1)
                  / resp.Data.Grid.MaxSession.toNat : Nat)
            - resp.Data.Grid.MaxSession := by ring
      rw [hexp]
      linarith [hltI]
  · intro hm
    rw [getCount_eq_normalize, if_neg (by omega)]

/-- Witness for C3: on the example response with MaxSession 2 the returned
value is computed by the integer ceiling formula. -/
theorem normalization_ceiling_rule_witness :
    getCountFromSeleniumResponse respCeilExample "chrome" "latest"
      = (rawMatchedCount respCeilExample "chrome" "latest"
          + respCeilExample.Data.Grid.MaxSession - 1)
            / respCeilExample.Data.Grid.MaxSession :=
  ((normalization_ceiling_rule respCeilExample "chrome" "latest").1 (by decide)).1

/-- Claim C4: a queued request whose capability string does not decode is
equivalent to no entry at all — the count over a response containing the
undecodable entry equals the count over the same response with that entry
deleted, for every split of the queue, every session list, every grid and
every target identity. -/
theorem malformed_queue_entry_equals_removal :
    ∀ (g : grid) (q1 q2 : List (Option capability)) (ss : List seleniumSession)
      (browserName browserVersion : String),
      getCountFromSeleniumResponse ⟨⟨g, ⟨q1 ++ none :: q2, ss⟩⟩⟩ browserName browserVersion
        = getCountFromSeleniumResponse ⟨⟨g, ⟨q1 ++ q2, ss⟩⟩⟩ browserName browserVersion := by
  intro g q1 q2 ss browserName browserVersion
  rw [getCount_eq_normalize, getCount_eq_normalize, rawMatchedCount_eq, rawMatchedCount_eq]
  simp [List.countP_append, List.countP_cons, queueMatchB]

/-- Claim C5: an entry with version 96.0.4664.45 and the target browser name
is counted for target version 96 and is not counted for target version 97,
both as a queued request and as an active session, and hence through the
whole count computation. -/
theorem version_family_match_example :
    queueLoopBody "chrome" "96" 0 (some ⟨"chrome", "96.0.4664.45"⟩) = 1
    ∧ queueLoopBody "chrome" "97" 0 (some ⟨"chrome", "96.0.4664.45"⟩) = 0
    ∧ sessionLoopBody "chrome" "96" 0 ⟨"id1", some ⟨"chrome", "96.0.4664.45"⟩, "node1"⟩ = 1
    ∧ sessionLoopBody "chrome" "97" 0 ⟨"id1", some ⟨"chrome", "96.0.4664.45"⟩, "node1"⟩ = 0
    ∧ getCountFromSeleniumResponse
        ⟨⟨⟨0⟩, ⟨[some ⟨"chrome", "96.0.4664.45"⟩], []⟩⟩⟩ "chrome" "96" = 1
    ∧ getCountFromSeleniumResponse
        ⟨⟨⟨0⟩, ⟨[some ⟨"chrome", "96.0.4664.45"⟩], []⟩⟩⟩ "chrome" "97" = 0 := by
  decide

/-- Claim C6: once the response body has decoded, the count computation is
total — it returns the computed count and no error — and a response in which
every capability string failed to decode yields 0. -/
theorem total_on_decoded_snapshot :
    ∀ (resp : seleniumResponse) (browserName browserVersion : String),
      getCountFromSeleniumResponseResult (some resp) browserName browserVersion
        = (getCountFromSeleniumResponse resp browserName browserVersion, none)
      ∧ ((∀ oc ∈ resp.Data.SessionsInfo.SessionQueueRequests, oc = none) →
         (∀ s ∈ resp.Data.SessionsInfo.Sessions, s.Capabilities = none) →
         getCountFromSeleniumResponse resp browserName browserVersion = 0) := by
  intro resp browserName browserVersion
  refine ⟨rfl, ?_⟩
  intro hq hs
  apply getCount_eq_zero_of_raw_zero
  rw [rawMatchedCount_eq]
  have h1 : resp.Data.SessionsInfo.SessionQueueRequests.countP
      (queueMatchB browserName browserVersion) = 0 := by
    rw [List.countP_eq_zero]
    intro a ha
    rw [hq a ha]
    simp [queueMatchB]
  have h2 : resp.Data.SessionsInfo.Sessions.countP
      (sessionMatchB browserName browserVersion) = 0 := by
    rw [List.countP_eq_zero]
    intro s hsm
    simp [sessionMatchB, hs s hsm]
  rw [h1, h2]
  rfl

/-- Witness for C6: the all-malformed example response yields 0. -/
theorem total_on_decoded_snapshot_witness :
    getCountFromSeleniumResponse respAllMalformed "chrome" "latest" = 0 :=
  (total_on_decoded_snapshot respAllMalformed "chrome" "latest").2
    (by decide) (by decide)

/-- Claim C7: a status code other than 200 makes `getSessionsCount` fail with
an error carrying the observed status code, independently of the body, and a
status error is distinguishable from the body decode error. -/
theorem non_ok_status_is_fatal :
    ∀ (res : httpResponse) (browserName browserVersion : String),
      (res.StatusCode ≠ 200 →
        getSessionsCount res browserName browserVersion
          = (-1, some (scalerError.statusError res.StatusCode)))
      ∧ (∀ code : Nat, scalerError.statusError code ≠ scalerError.unmarshalError) := by
  intro res browserName browserVersion
  constructor
  · intro h
    rw [getSessionsCount, if_pos h]
  · intro code hcon
    exact scalerError.noConfusion hcon

/-- Witness for C7: a 500 response fails with a status error carrying 500. -/
theorem non_ok_status_is_fatal_witness :
    getSessionsCount resServerError "chrome" "latest"
      = (-1, some (scalerError.statusError 500)) :=
  (non_ok_status_is_fatal resServerError "chrome" "latest").1 (by decide)

/-- Claim C8: when the sessions count succeeds with value v, `IsActive`
reports true exactly when v is positive (and no error); when the count fails,
`IsActive` reports false together with the same error. -/
theorem is_active_iff_positive_count :
    ∀ (res : httpResponse) (browserName browserVersion : String),
      (∀ v : Int, getSessionsCount res browserName browserVersion = (v, none) →
        ((IsActive res browserName browserVersion).1 = true ↔ 0 < v)
        ∧ (IsActive res browserName browserVersion).2 = none)
      ∧ (∀ (v : Int) (e : scalerError),
          getSessionsCount res browserName browserVersion = (v, some e) →
          IsActive res browserName browserVersion = (false, some e)) := by
  intro res browserName browserVersion
  constructor
  · intro v hv
    simp [IsActive, hv]
  · intro v e hv
    simp [IsActive, hv]

/-- Witness for C8: on the 200 example response the count is 2, so IsActive
reports true. -/
theorem is_active_iff_positive_count_witness :
    (IsActive resOk "chrome" "latest").1 = true :=
  (((is_active_iff_positive_count resOk "chrome" "latest").1 2 (by decide)).1).mpr
    (by decide)

/-- Claim C9: the raw matched count and the returned count are between 0 and
the total number of queued requests plus active sessions, and a response with
no queued requests and no active sessions yields 0 for every target. -/
theorem single_pass_count_bounds :
    ∀ (resp : seleniumResponse) (browserName browserVersion : String),
      0 ≤ rawMatchedCount resp browserName browserVersion
      ∧ rawMatchedCount resp browserName browserVersion
          ≤ (resp.Data.SessionsInfo.SessionQueueRequests.length : Int)
            + (resp.Data.SessionsInfo.Sessions.length : Int)
      ∧ 0 ≤ getCountFromSeleniumResponse resp browserName browserVersion
      ∧ getCountFromSeleniumResponse resp browserName browserVersion
          ≤ (resp.Data.SessionsInfo.SessionQueueRequests.length : Int)
            + (resp.Data.SessionsInfo.Sessions.length : Int)
      ∧ (resp.Data.SessionsInfo.SessionQueueRequests = [] →
          resp.Data.SessionsInfo.Sessions = [] →
          getCountFromSeleniumResponse resp browserName browserVersion = 0) := by
  intro resp browserName browserVersion
  have hraw := rawMatchedCount_nonneg resp browserName browserVersion
  have hle : rawMatchedCount resp browserName browserVersion
      ≤ (resp.Data.SessionsInfo.SessionQueueRequests.length : Int)
        + (resp.Data.SessionsInfo.Sessions.length : Int) := by
    rw [rawMatchedCount_eq]
    have h1 := List.countP_le_length (p := queueMatchB browserName browserVersion)
      (l := resp.Data.SessionsInfo.SessionQueueRequests)
    have h2 := List.countP_le_length (p := sessionMatchB browserName browserVersion)
      (l := resp.Data.SessionsInfo.Sessions)
    have h1I : (resp.Data.SessionsInfo.SessionQueueRequests.countP
        (queueMatchB browserName browserVersion) : Int)
        ≤ (resp.Data.SessionsInfo.SessionQueueRequests.length : Int) := by
      exact_mod_cast h1
    have h2I : (resp.Data.SessionsInfo.Sessions.countP
        (sessionMatchB browserName browserVersion) : Int)
        ≤ (resp.Data.SessionsInfo.Sessions.length : Int) := by
      exact_mod_cast h2
    linarith
  obtain ⟨hc0, hcr⟩ := getCount_nonneg_le_raw resp browserName browserVersion
  refine ⟨hraw, hle, hc0, le_trans hcr hle, ?_⟩
  intro hq hs
  apply getCount_eq_zero_of_raw_zero
  rw [rawMatchedCount_eq, hq, hs]
  rfl

/-- Witness for C9: the empty example response yields 0. -/
theorem single_pass_count_bounds_witness :
    getCountFromSeleniumResponse respEmpty "chrome" "latest" = 0 :=
  (single_pass_count_bounds respEmpty "chrome" "latest").2.2.2.2 rfl rfl

/-- Claim C10: whenever metadata parsing succeeds the resulting browserVersion
is non-empty, and a browserVersion key that is absent or holds the empty
string is replaced by the default sentinel "latest". -/
theorem parsed_browser_version_nonempty :
    ∀ (config : ScalerConfig) (meta : seleniumGridScalerMetadata),
      parseSeleniumGridScalerMetadata config = Except.ok meta →
        meta.browserVersion ≠ ""
        ∧ ((config.TriggerMetadata "browserVersion" = none
            ∨ config.TriggerMetadata "browserVersion" = some "") →
          meta.browserVersion = DefaultBrowserVersion) := by
  intro config meta h
  unfold parseSeleniumGridScalerMetadata at h
  split at h
  · exact absurd h (by simp)
  · split at h
    · exact absurd h (by simp)
    · split at h
      · split at h
        · exact absurd h (by simp)
        · have hmeta := Except.ok.inj h
          subst hmeta
          exact metadataBrowserVersion_spec (config.TriggerMetadata "browserVersion")
      · have hmeta := Except.ok.inj h
        subst hmeta
        exact metadataBrowserVersion_spec (config.TriggerMetadata "browserVersion")

/-- Witness for C10: parsing the example configuration with no browserVersion
key yields the sentinel version, which is non-empty. -/
theorem parsed_browser_version_nonempty_witness :
    (⟨"http://selenium-hub:4444/graphql", "chrome", 1, "latest", false, 0⟩
      : seleniumGridScalerMetadata).browserVersion ≠ "" :=
  (parsed_browser_version_nonempty cfgNoVersion
    ⟨"http://selenium-hub:4444/graphql", "chrome", 1, "latest", false, 0⟩ (by rfl)).1

end KedaSelenium
